import Mathlib

/-!
Shallow embedding of the v2 integrations adapter layer of the agent
repository: the config wrapper, the composition registry, the
error-masking run wrapper, integration construction from v1 capabilities,
and the custom-unmarshaler guard.

Go errors are embedded as an inductive type; a Go `error` value that may
be nil is `Option GoError`.  Go contexts are embedded by the value their
`Err()` method returns (`none` while the context is active, `some e`
once it is canceled or expired).  Fallible Go functions returning
`(T, error)` become `Except GoError T` (or explicit pairs where the Go
code inspects both components).  Mutation of a receiver becomes explicit
state passing.
-/

/-- Embedding of Go `error` values. `canceled` is `context.Canceled`,
`deadlineExceeded` is `context.DeadlineExceeded`, `wrap` is
`fmt.Errorf("...: %w", err)`, and `mk` is `errors.New(msg)`. -/
inductive GoError where
  | canceled : GoError
  | deadlineExceeded : GoError
  | wrap (msg : String) (inner : GoError) : GoError
  | mk (msg : String) : GoError
deriving DecidableEq, Repr

/-- Embedding of `errors.Is(err, context.Canceled)`: true when the error
is `context.Canceled` or wraps it. -/
def errorsIsCanceled : GoError → Bool
  | .canceled => true
  | .wrap _ inner => errorsIsCanceled inner
  | _ => false

/-- A Go `context.Context` seen through `ctx.Err()`: `none` while active,
`some e` once canceled or expired. -/
abbrev Ctx := Option GoError

/-- The error-masking run wrapper installed by `newIntegrationFromV1`
(the body of the `runFunc` closure, src/unnamed/part_001 lines 479-490):
`err == nil` returns nil; `errors.Is(err, context.Canceled) && ctx.Err() != nil`
returns nil; anything else returns `err` unchanged. -/
def maskRun (err : Option GoError) (ctxErr : Ctx) : Option GoError :=
  match err with
  | none => none
  | some e =>
      if errorsIsCanceled e && ctxErr.isSome then none
      else some e

/-- C1: the error-masking run wrapper is a pure case analysis on
(returned error, context state): nil errors pass through as nil; a
cancellation-shaped error is masked to nil exactly when the context is
itself canceled/expired and is propagated unchanged while the context is
still active; every other error is returned unchanged. -/
theorem maskRun_case_analysis (err : Option GoError) (ctxErr : Ctx) :
    (err = none → maskRun err ctxErr = none) ∧
    (∀ e, err = some e → errorsIsCanceled e = true → ctxErr.isSome = true →
      maskRun err ctxErr = none) ∧
    (∀ e, err = some e → errorsIsCanceled e = true → ctxErr = none →
      maskRun err ctxErr = some e) ∧
    (∀ e, err = some e → errorsIsCanceled e = false →
      maskRun err ctxErr = some e) := by
  refine ⟨?_, ?_, ?_, ?_⟩
  · intro h; subst h; rfl
  · intro e h hc hs; subst h; simp [maskRun, hc, hs]
  · intro e h hc hs; subst h; simp [maskRun, hc, hs]
  · intro e h hc; subst h; simp [maskRun, hc]

/-- Witness for C1: the four cases evaluated at concrete inputs. -/
theorem maskRun_case_analysis_witness :
    maskRun none (some .canceled) = none ∧
    maskRun (some .canceled) (some .canceled) = none ∧
    maskRun (some (.wrap "op" .canceled)) none = some (.wrap "op" .canceled) ∧
    maskRun (some (.mk "boom")) (some .canceled) = some (.mk "boom") :=
  ⟨(maskRun_case_analysis none (some .canceled)).1 rfl,
   (maskRun_case_analysis (some .canceled) (some .canceled)).2.1 .canceled rfl rfl rfl,
   (maskRun_case_analysis (some (.wrap "op" .canceled)) none).2.2.1
     (.wrap "op" .canceled) rfl rfl rfl,
   (maskRun_case_analysis (some (.mk "boom")) (some .canceled)).2.2.2
     (.mk "boom") rfl (by decide)⟩

/-- Modelled from the spec: the Common Settings fragment
(`common.MetricsConfig`, whose source is not in the repository slice).
Per the spec's data model it holds the autoscrape cadence (derived from
global defaults unless overridden) and an optional explicit instance
key. -/
structure MetricsConfig where
  scrapeInterval : Option Nat
  instanceKey : Option String
deriving DecidableEq, Repr

/-- Modelled from the spec: `common.MetricsConfig.ApplyDefaults`
(source not in the repository slice) applies the global autoscrape
default into the Common Settings only where the user did not override
it; explicit user values always take precedence over global defaults. -/
def MetricsConfig.applyDefaults (globalInterval : Nat) (m : MetricsConfig) :
    MetricsConfig :=
  { m with scrapeInterval := some (m.scrapeInterval.getD globalInterval) }

/-- Embedding of `shared.Globals`: the process-wide autoscrape default
and the agent-wide stable identifier. -/
structure Globals where
  autoscrapeInterval : Nat
  agentIdentifier : String
deriving DecidableEq, Repr

/-- Embedding of `configWrapper` (src/unnamed/part_001 lines 385-390):
the wrapped legacy config is represented by its `Name()` string, plus
the Common Settings and the per-kind identifier function
(`configInstance`). The per-kind constructor function is passed
separately where needed. -/
structure ConfigWrapper where
  name : String
  cmn : MetricsConfig
  configInstanceFunc : String → Except GoError String

/-- Embedding of `configWrapper.Identifier` (lines 400-405): returns the
cached instance key when present, otherwise delegates to the per-kind
identifier function applied to the agent-wide identifier. -/
def ConfigWrapper.identifier (c : ConfigWrapper) (g : Globals) :
    Except GoError String :=
  match c.cmn.instanceKey with
  | some k => .ok k
  | none => c.configInstanceFunc g.agentIdentifier

/-- Embedding of `configWrapper.ApplyDefaults` (lines 392-398): applies
the Common Settings defaults, then caches the resolved identifier into
the instance key when resolution succeeds, and always returns nil. -/
def ConfigWrapper.applyDefaults (c : ConfigWrapper) (g : Globals) :
    ConfigWrapper × Option GoError :=
  let c1 := { c with cmn := c.cmn.applyDefaults g.autoscrapeInterval }
  let c2 :=
    match c1.identifier g with
    | .ok id => { c1 with cmn := { c1.cmn with instanceKey := some id } }
    | .error _ => c1
  (c2, none)

/-- C3: invoking `ApplyDefaults` twice leaves the Common Settings (and
in particular the resolved instance key) equal to the state after one
invocation; the second invocation is a no-op because `Identifier`
returns the key cached by the first. -/
theorem applyDefaults_idempotent (c : ConfigWrapper) (g : Globals) :
    (((c.applyDefaults g).1).applyDefaults g).1.cmn = (c.applyDefaults g).1.cmn := by
  rcases c with ⟨n, ⟨si, ik⟩, f⟩
  cases ik with
  | some k =>
      simp [ConfigWrapper.applyDefaults, ConfigWrapper.identifier,
        MetricsConfig.applyDefaults]
  | none =>
      cases hf : f g.agentIdentifier with
      | ok id =>
          simp [ConfigWrapper.applyDefaults, ConfigWrapper.identifier,
            MetricsConfig.applyDefaults, hf]
      | error e =>
          simp [ConfigWrapper.applyDefaults, ConfigWrapper.identifier,
            MetricsConfig.applyDefaults, hf]

/-- C4: when the Common Settings carries an explicit instance key before
`ApplyDefaults`, the instance key field holds the same string afterwards
for every global context: the explicit user value is never overwritten. -/
theorem applyDefaults_preserves_explicit_key (c : ConfigWrapper) (g : Globals)
    (k : String) (h : c.cmn.instanceKey = some k) :
    (c.applyDefaults g).1.cmn.instanceKey = some k := by
  rcases c with ⟨n, ⟨si, ik⟩, f⟩
  simp only at h
  simp [ConfigWrapper.applyDefaults, ConfigWrapper.identifier,
    MetricsConfig.applyDefaults, h]

/-- Witness for C4: a wrapper with explicit key "user-key" keeps it. -/
theorem applyDefaults_preserves_explicit_key_witness :
    (ConfigWrapper.applyDefaults
      { name := "redis", cmn := { scrapeInterval := none, instanceKey := some "user-key" },
        configInstanceFunc := fun a => .ok a }
      { autoscrapeInterval := 60, agentIdentifier := "host-1" }).1.cmn.instanceKey
      = some "user-key" :=
  applyDefaults_preserves_explicit_key
    { name := "redis", cmn := { scrapeInterval := none, instanceKey := some "user-key" },
      configInstanceFunc := fun a => .ok a }
    { autoscrapeInterval := 60, agentIdentifier := "host-1" } "user-key" rfl

/-- C9: `ApplyDefaults` always returns nil, even when identifier
resolution fails; in that case the instance key is left unset and the
failure only surfaces later through `Identifier`. -/
theorem applyDefaults_never_errors (c : ConfigWrapper) (g : Globals) :
    (c.applyDefaults g).2 = none ∧
    (∀ e, c.cmn.instanceKey = none →
      c.configInstanceFunc g.agentIdentifier = .error e →
      (c.applyDefaults g).1.cmn.instanceKey = none ∧
      (c.applyDefaults g).1.identifier g = .error e) := by
  constructor
  · rfl
  · intro e hk hf
    rcases c with ⟨n, ⟨si, ik⟩, f⟩
    simp only at hk hf
    subst hk
    simp [ConfigWrapper.applyDefaults, ConfigWrapper.identifier,
      MetricsConfig.applyDefaults, hf]

/-- Witness for C9: a wrapper whose identifier function fails keeps an
unset key, reports no error from `ApplyDefaults`, and still fails
`Identifier` afterwards. -/
theorem applyDefaults_never_errors_witness :
    (ConfigWrapper.applyDefaults
      { name := "consul", cmn := { scrapeInterval := none, instanceKey := none },
        configInstanceFunc := fun _ => .error (.mk "no hostname") }
      { autoscrapeInterval := 60, agentIdentifier := "host-1" }).2 = none ∧
    (ConfigWrapper.applyDefaults
      { name := "consul", cmn := { scrapeInterval := none, instanceKey := none },
        configInstanceFunc := fun _ => .error (.mk "no hostname") }
      { autoscrapeInterval := 60, agentIdentifier := "host-1" }).1.cmn.instanceKey = none :=
  ⟨(applyDefaults_never_errors
      { name := "consul", cmn := { scrapeInterval := none, instanceKey := none },
        configInstanceFunc := fun _ => .error (.mk "no hostname") }
      { autoscrapeInterval := 60, agentIdentifier := "host-1" }).1,
   ((applyDefaults_never_errors
      { name := "consul", cmn := { scrapeInterval := none, instanceKey := none },
        configInstanceFunc := fun _ => .error (.mk "no hostname") }
      { autoscrapeInterval := 60, agentIdentifier := "host-1" }).2
      (.mk "no hostname") rfl rfl).1⟩

/-- Embedding of Go `http.Handler` values reaching this layer:
`notFound` is `http.NotFoundHandler()` and `custom` is any exporter
handler, seen as a map from request path to HTTP status code. -/
inductive Handler where
  | notFound : Handler
  | custom (respond : String → Nat) : Handler

/-- The status code a handler answers for a request path;
`http.NotFoundHandler()` answers 404 for every request. -/
def Handler.status : Handler → String → Nat
  | .notFound, _ => 404
  | .custom f, path => f path

/-- Embedding of the v1 `config.ScrapeConfig` tuple returned by
`ScrapeConfigs()`: a job name and a relative metrics path. -/
structure V1ScrapeConfig where
  jobName : String
  metricsPath : String
deriving DecidableEq, Repr

/-- Embedding of `handlerTarget`: a metrics path plus a label set; the
label set is the association list of (label name, label value). -/
structure HandlerTarget where
  metricsPath : String
  labels : List (String × String)
deriving DecidableEq, Repr

/-- Embedding of a Go slice: `none` is the nil slice, `some xs` a
non-nil slice holding `xs`. -/
abbrev GoSlice (α : Type) := Option (List α)

/-- Ranging over a Go slice: the nil slice yields no elements. -/
def GoSlice.toList {α : Type} : GoSlice α → List α
  | none => []
  | some xs => xs

/-- Embedding of a go-kit logger, opaque to this layer. -/
inductive Logger where
  | default : Logger

/-- Embedding of a constructed v1 legacy capability
(`shared.Integration`): the result pair of `MetricsHandler()`, the
slice returned by `ScrapeConfigs()` (never nil per the interface
contract, but the embedding permits nil), and the `Run` function as a
map from the context's terminal error state to the returned error. -/
structure V1Integration where
  metricsHandler : Option Handler × Option GoError
  scrapeConfigs : GoSlice V1ScrapeConfig
  run : Ctx → Option GoError

/-- Embedding of the v2 `metricsHandlerIntegration` struct assembled by
`newIntegrationFromV1`: every field of the struct literal at
src/unnamed/part_001 lines 493-503. -/
structure MetricsHandlerIntegration where
  integrationName : String
  instanceID : String
  common : MetricsConfig
  globals : Globals
  handler : Handler
  targets : GoSlice HandlerTarget
  runFunc : Ctx → Option GoError

/-- Embedding of `newIntegrationFromV1` (src/unnamed/part_001 lines
436-504): constructs the legacy capability, resolves the identifier,
extracts the metrics handler (substituting `http.NotFoundHandler()` for
a nil handler), builds one target per scrape config with the job label
prefixed by "integrations/", and installs the error-masking run
wrapper. -/
def newIntegrationFromV1 (c : ConfigWrapper) (logger : Logger) (g : Globals)
    (newInt : Logger → Except GoError V1Integration) :
    Except GoError MetricsHandlerIntegration :=
  match newInt logger with
  | .error e => .error e
  | .ok v1 =>
    match c.identifier g with
    | .error e => .error e
    | .ok id =>
      match v1.metricsHandler with
      | (_, some e) => .error (.wrap "generating http handler" e)
      | (h?, none) =>
        let handler := h?.getD .notFound
        let targets := (v1.scrapeConfigs.toList).map fun sc =>
          { metricsPath := sc.metricsPath,
            labels := [("job", "integrations/" ++ sc.jobName)] : HandlerTarget }
        .ok { integrationName := c.name
              instanceID := id
              common := c.cmn
              globals := g
              handler := handler
              targets := some targets
              runFunc := fun ctx => maskRun (v1.run ctx) ctx }


/-- C5: on success, `newIntegrationFromV1` produces one target per
legacy scrape config, in order; each target's job label is exactly
"integrations/" followed by the declared job name, and its metrics path
equals the legacy scrape config's metrics path. -/
theorem targets_job_label_and_path (c : ConfigWrapper) (logger : Logger)
    (g : Globals) (newInt : Logger → Except GoError V1Integration)
    (v1 : V1Integration) (integ : MetricsHandlerIntegration)
    (h1 : newInt logger = .ok v1)
    (h2 : newIntegrationFromV1 c logger g newInt = .ok integ) :
    ∃ ts : List HandlerTarget, integ.targets = some ts ∧
      ts.length = (GoSlice.toList v1.scrapeConfigs).length ∧
      ∀ i (hi : i < ts.length) (hj : i < (GoSlice.toList v1.scrapeConfigs).length),
        (ts.get ⟨i, hi⟩).metricsPath
          = ((GoSlice.toList v1.scrapeConfigs).get ⟨i, hj⟩).metricsPath ∧
        (ts.get ⟨i, hi⟩).labels
          = [("job", "integrations/"
                ++ ((GoSlice.toList v1.scrapeConfigs).get ⟨i, hj⟩).jobName)] := by
  obtain ⟨⟨mh, merr⟩, scs, runf⟩ := v1
  unfold newIntegrationFromV1 at h2
  rw [h1] at h2
  dsimp only at h2
  cases hid : c.identifier g with
  | error e => rw [hid] at h2; exact absurd h2 (by simp)
  | ok id =>
    rw [hid] at h2
    dsimp only at h2
    cases merr with
    | some e => exact absurd h2 (by simp)
    | none =>
      simp only [Except.ok.injEq] at h2
      subst h2
      refine ⟨_, rfl, by simp, ?_⟩
      intro i hi hj
      constructor
      · simp [List.getElem_map]
      · simp [List.getElem_map]

/-- The config wrapper used by the concrete C5 instantiation. -/
def exV1Wrapper : ConfigWrapper :=
  { name := "node_exporter",
    cmn := { scrapeInterval := none, instanceKey := some "n1" },
    configInstanceFunc := fun a => .ok a }

/-- The globals used by the concrete instantiations. -/
def exGlobals : Globals :=
  { autoscrapeInterval := 60, agentIdentifier := "host-1" }

/-- The legacy capability used by the concrete C5 instantiation: a nil
metrics handler, two scrape configs, and a run that echoes ctx.Err(). -/
def exV1Capability : V1Integration :=
  { metricsHandler := (none, none),
    scrapeConfigs := some
      [{ jobName := "node_exporter", metricsPath := "/metrics" },
       { jobName := "extra", metricsPath := "/extra-metrics" }],
    run := fun ctx => ctx }

/-- The runtime integration built from `exV1Capability`. -/
def exBuiltIntegration : MetricsHandlerIntegration :=
  { integrationName := "node_exporter", instanceID := "n1",
    common := { scrapeInterval := none, instanceKey := some "n1" },
    globals := exGlobals,
    handler := .notFound,
    targets := some
      [{ metricsPath := "/metrics",
         labels := [("job", "integrations/" ++ "node_exporter")] },
       { metricsPath := "/extra-metrics",
         labels := [("job", "integrations/" ++ "extra")] }],
    runFunc := fun ctx => maskRun ctx ctx }

/-- Witness for C5: a capability with two scrape configs yields two
targets with the prefixed job labels and the original metrics paths. -/
theorem targets_job_label_and_path_witness :
    ∃ ts : List HandlerTarget, exBuiltIntegration.targets = some ts ∧
      ts.length = (GoSlice.toList exV1Capability.scrapeConfigs).length ∧
      ∀ i (hi : i < ts.length)
        (hj : i < (GoSlice.toList exV1Capability.scrapeConfigs).length),
        (ts.get ⟨i, hi⟩).metricsPath
          = ((GoSlice.toList exV1Capability.scrapeConfigs).get ⟨i, hj⟩).metricsPath ∧
        (ts.get ⟨i, hi⟩).labels
          = [("job", "integrations/"
                ++ ((GoSlice.toList exV1Capability.scrapeConfigs).get ⟨i, hj⟩).jobName)] :=
  targets_job_label_and_path exV1Wrapper .default exGlobals
    (fun _ => .ok exV1Capability) exV1Capability exBuiltIntegration rfl rfl

/-- C7: when the legacy capability's `MetricsHandler()` returns
`(nil, nil)`, `NewIntegration` succeeds (a nil handler is not a
failure) and the resulting integration's handler is the default
not-found handler, which answers HTTP 404 for every request. -/
theorem nil_handler_defaults_to_not_found (c : ConfigWrapper) (logger : Logger)
    (g : Globals) (newInt : Logger → Except GoError V1Integration)
    (v1 : V1Integration) (id : String)
    (h1 : newInt logger = .ok v1)
    (h2 : v1.metricsHandler = (none, none))
    (h3 : c.identifier g = .ok id) :
    ∃ integ : MetricsHandlerIntegration,
      newIntegrationFromV1 c logger g newInt = .ok integ ∧
      integ.handler = .notFound ∧
      ∀ path, integ.handler.status path = 404 := by
  obtain ⟨⟨mh, merr⟩, scs, runf⟩ := v1
  obtain ⟨hmh, hmerr⟩ := Prod.mk.injEq .. ▸ h2
  subst hmh; subst hmerr
  refine ⟨{ integrationName := c.name, instanceID := id, common := c.cmn,
            globals := g, handler := .notFound,
            targets := some ((GoSlice.toList scs).map fun sc =>
              { metricsPath := sc.metricsPath,
                labels := [("job", "integrations/" ++ sc.jobName)] }),
            runFunc := fun ctx => maskRun (runf ctx) ctx },
         ?_, rfl, fun path => rfl⟩
  unfold newIntegrationFromV1
  rw [h1]
  dsimp only
  rw [h3]
  rfl

/-- Witness for C7: the concrete capability with a nil metrics handler
yields a not-found handler answering 404. -/
theorem nil_handler_defaults_to_not_found_witness :
    ∃ integ : MetricsHandlerIntegration,
      newIntegrationFromV1 exV1Wrapper .default exGlobals
        (fun _ => .ok exV1Capability) = .ok integ ∧
      integ.handler = .notFound ∧
      ∀ path, integ.handler.status path = 404 :=
  nil_handler_defaults_to_not_found exV1Wrapper .default exGlobals
    (fun _ => .ok exV1Capability) exV1Capability "n1" rfl rfl rfl

/-- C8: `newIntegrationFromV1` is all-or-nothing: a failure of the
legacy constructor, of identifier resolution, or of metrics-handler
extraction yields an error and no integration; on success every field
is populated from the inputs and the target slice is non-nil. -/
theorem newIntegration_all_or_nothing (c : ConfigWrapper) (logger : Logger)
    (g : Globals) (newInt : Logger → Except GoError V1Integration) :
    (∀ e, newInt logger = .error e →
      newIntegrationFromV1 c logger g newInt = .error e) ∧
    (∀ v1 e, newInt logger = .ok v1 → c.identifier g = .error e →
      newIntegrationFromV1 c logger g newInt = .error e) ∧
    (∀ v1 id e, newInt logger = .ok v1 → c.identifier g = .ok id →
      (v1.metricsHandler).2 = some e →
      newIntegrationFromV1 c logger g newInt
        = .error (.wrap "generating http handler" e)) ∧
    (∀ integ, newIntegrationFromV1 c logger g newInt = .ok integ →
      (integ.targets).isSome = true ∧
      integ.integrationName = c.name ∧
      integ.common = c.cmn ∧
      integ.globals = g ∧
      ∃ id, c.identifier g = .ok id ∧ integ.instanceID = id) := by
  refine ⟨?_, ?_, ?_, ?_⟩
  · intro e he
    unfold newIntegrationFromV1
    rw [he]
  · intro v1 e hok hid
    unfold newIntegrationFromV1
    rw [hok]
    dsimp only
    rw [hid]
  · intro v1 id e hok hid hmh
    obtain ⟨⟨mh, merr⟩, scs, runf⟩ := v1
    simp only at hmh
    subst hmh
    unfold newIntegrationFromV1
    rw [hok]
    dsimp only
    rw [hid]
  · intro integ hinteg
    unfold newIntegrationFromV1 at hinteg
    cases hok : newInt logger with
    | error e => rw [hok] at hinteg; exact absurd hinteg (by simp)
    | ok v1 =>
      rw [hok] at hinteg
      dsimp only at hinteg
      cases hid : c.identifier g with
      | error e => rw [hid] at hinteg; exact absurd hinteg (by simp)
      | ok id =>
        rw [hid] at hinteg
        dsimp only at hinteg
        obtain ⟨⟨mh, merr⟩, scs, runf⟩ := v1
        cases merr with
        | some e => exact absurd hinteg (by simp)
        | none =>
          simp only [Except.ok.injEq] at hinteg
          subst hinteg
          exact ⟨rfl, rfl, rfl, rfl, id, rfl, rfl⟩

/-- Witness for C8: the concrete successful construction has a non-nil
target slice and fields populated from the wrapper and globals, and a
failing constructor propagates its error. -/
theorem newIntegration_all_or_nothing_witness :
    newIntegrationFromV1 exV1Wrapper .default exGlobals
      (fun _ => .error (.mk "connection refused")) = .error (.mk "connection refused") ∧
    ((newIntegrationFromV1 exV1Wrapper .default exGlobals
      (fun _ => .ok exV1Capability) = .ok exBuiltIntegration) ∧
      (exBuiltIntegration.targets).isSome = true ∧
      exBuiltIntegration.integrationName = exV1Wrapper.name) :=
  ⟨(newIntegration_all_or_nothing exV1Wrapper .default exGlobals
      (fun _ => .error (.mk "connection refused"))).1 (.mk "connection refused") rfl,
   rfl,
   ((newIntegration_all_or_nothing exV1Wrapper .default exGlobals
      (fun _ => .ok exV1Capability)).2.2.2 exBuiltIntegration rfl).1,
   ((newIntegration_all_or_nothing exV1Wrapper .default exGlobals
      (fun _ => .ok exV1Capability)).2.2.2 exBuiltIntegration rfl).2.1⟩

/-- Embedding of the non-Windows `windows_exporter` `Integration.Run`
(src/pkg/integrations/windows_exporter/windows_exporter.go lines
37-42): it blocks on `<-ctx.Done()` and then returns `ctx.Err()`; the
embedding maps the context's terminal error state to the returned
error. -/
def windowsExporterRun (ctx : Ctx) : Option GoError := ctx

/-- C10: once its context reaches a done state, the non-Windows
windows_exporter `Run` returns exactly `ctx.Err()`; after an explicit
cancellation that value is `context.Canceled`, which is non-nil, and the
error-masking run wrapper composed around this `Run` returns nil, so
the shutdown is reported as clean. -/
theorem windows_run_returns_ctx_err_and_is_masked :
    (∀ e : GoError, windowsExporterRun (some e) = some e) ∧
    (windowsExporterRun (some .canceled)).isSome = true ∧
    maskRun (windowsExporterRun (some .canceled)) (some .canceled) = none :=
  ⟨fun _ => rfl, rfl, rfl⟩

/-- The exporter kinds of the composition registry, in the declaration
order of the `Integrations` struct (src/unnamed/part_001 lines 38-56). -/
inductive Kind where
  | agent | cadvisor | consulExporter | dnsmasqExporter
  | elasticsearchExporter | githubExporter | kafkaExporter
  | memcachedExporter | mongodbExporter | mysqldExporter | nodeExporter
  | postgresExporter | processExporter | redisExporter | statsdExporter
  | windowsExporter | testConfig
deriving DecidableEq, Repr

/-- Embedding of the `Integrations` struct (src/unnamed/part_001 lines
38-56): one slot per exporter kind, singular slots as `Option` (a nil
pointer is `none`), repeated slots as lists; the per-kind config
payloads are abstracted by `α`. -/
structure Integrations (α : Type) where
  agent : Option α
  cadvisor : Option α
  consulExporterConfigs : List α
  dnsmasqExporterConfigs : List α
  elasticsearchExporterConfigs : List α
  githubExporterConfigs : List α
  kafkaExporterConfigs : List α
  memcachedExporterConfigs : List α
  mongodbExporterConfigs : List α
  mysqldExporterConfigs : List α
  nodeExporter : Option α
  postgresExporterConfigs : List α
  processExporter : Option α
  redisExporterConfigs : List α
  statsdExporter : Option α
  windowsExporter : Option α
  testConfigs : List α
deriving DecidableEq, Repr

/-- Embedding of the `if v.Slot != nil { activeConfigs = append(activeConfigs, ...) }`
statements of `ActiveConfigs`: append one tagged config when the
singular slot is present. -/
def appendIfPresent {α : Type} (k : Kind) (o : Option α)
    (acc : List (Kind × α)) : List (Kind × α) :=
  match o with
  | some a => acc ++ [(k, a)]
  | none => acc

/-- Embedding of the `for _, i := range v.SlotConfigs { ... append ... }`
loops of `ActiveConfigs`: append one tagged config per list element, in
order. -/
def appendEach {α : Type} (k : Kind) (l : List α)
    (acc : List (Kind × α)) : List (Kind × α) :=
  l.foldl (fun acc i => acc ++ [(k, i)]) acc

/-- Embedding of `Integrations.ActiveConfigs` (src/unnamed/part_001
lines 59-113): starts from an empty slice, appends each present
singular slot once and each repeated slot element in declaration
order, each config tagged with its kind. -/
def Integrations.ActiveConfigs {α : Type} (v : Integrations α) :
    List (Kind × α) :=
  let acc : List (Kind × α) := []
  let acc := appendIfPresent Kind.agent v.agent acc
  let acc := appendIfPresent Kind.cadvisor v.cadvisor acc
  let acc := appendEach Kind.consulExporter v.consulExporterConfigs acc
  let acc := appendEach Kind.dnsmasqExporter v.dnsmasqExporterConfigs acc
  let acc := appendEach Kind.elasticsearchExporter v.elasticsearchExporterConfigs acc
  let acc := appendEach Kind.githubExporter v.githubExporterConfigs acc
  let acc := appendEach Kind.kafkaExporter v.kafkaExporterConfigs acc
  let acc := appendEach Kind.memcachedExporter v.memcachedExporterConfigs acc
  let acc := appendEach Kind.mongodbExporter v.mongodbExporterConfigs acc
  let acc := appendEach Kind.mysqldExporter v.mysqldExporterConfigs acc
  let acc := appendIfPresent Kind.nodeExporter v.nodeExporter acc
  let acc := appendEach Kind.postgresExporter v.postgresExporterConfigs acc
  let acc := appendIfPresent Kind.processExporter v.processExporter acc
  let acc := appendEach Kind.redisExporter v.redisExporterConfigs acc
  let acc := appendIfPresent Kind.statsdExporter v.statsdExporter acc
  let acc := appendIfPresent Kind.windowsExporter v.windowsExporter acc
  let acc := appendEach Kind.testConfig v.testConfigs acc
  acc

/-- Appending a present singular slot is the accumulator followed by
the slot's zero-or-one tagged configs. -/
theorem appendIfPresent_eq {α : Type} (k : Kind) (o : Option α)
    (acc : List (Kind × α)) :
    appendIfPresent k o acc = acc ++ (o.toList.map fun a => (k, a)) := by
  cases o <;> simp [appendIfPresent]

/-- Appending every element of a repeated slot is the accumulator
followed by the tagged elements in order. -/
theorem appendEach_eq {α : Type} (k : Kind) :
    ∀ (l : List α) (acc : List (Kind × α)),
      appendEach k l acc = acc ++ (l.map fun a => (k, a)) := by
  intro l
  induction l with
  | nil => intro acc; simp [appendEach]
  | cons x xs ih =>
      intro acc
      simp only [appendEach, List.foldl_cons, List.map_cons] at ih ⊢
      rw [ih, List.append_assoc]
      simp

/-- A configuration with the Cadvisor singular slot filled and two
consul_exporter entries, all other slots absent. -/
def exThreeConfigs : Integrations Nat :=
  { agent := none, cadvisor := some 7, consulExporterConfigs := [1, 2],
    dnsmasqExporterConfigs := [], elasticsearchExporterConfigs := [],
    githubExporterConfigs := [], kafkaExporterConfigs := [],
    memcachedExporterConfigs := [], mongodbExporterConfigs := [],
    mysqldExporterConfigs := [], nodeExporter := none,
    postgresExporterConfigs := [], processExporter := none,
    redisExporterConfigs := [], statsdExporter := none,
    windowsExporter := none, testConfigs := [] }

/-- C2: `ActiveConfigs` is the flattened list where each singular slot
contributes exactly one config iff it is non-nil, each repeated slot
contributes one config per element in declaration order, and the kinds
appear in the fixed priority order; in particular one filled singular
slot plus one repeated slot with two entries yields exactly three
configs. -/
theorem activeConfigs_flattening :
    (∀ (α : Type) (v : Integrations α),
      v.ActiveConfigs
        = (v.agent.toList.map fun a => (Kind.agent, a))
          ++ (v.cadvisor.toList.map fun a => (Kind.cadvisor, a))
          ++ (v.consulExporterConfigs.map fun a => (Kind.consulExporter, a))
          ++ (v.dnsmasqExporterConfigs.map fun a => (Kind.dnsmasqExporter, a))
          ++ (v.elasticsearchExporterConfigs.map fun a => (Kind.elasticsearchExporter, a))
          ++ (v.githubExporterConfigs.map fun a => (Kind.githubExporter, a))
          ++ (v.kafkaExporterConfigs.map fun a => (Kind.kafkaExporter, a))
          ++ (v.memcachedExporterConfigs.map fun a => (Kind.memcachedExporter, a))
          ++ (v.mongodbExporterConfigs.map fun a => (Kind.mongodbExporter, a))
          ++ (v.mysqldExporterConfigs.map fun a => (Kind.mysqldExporter, a))
          ++ (v.nodeExporter.toList.map fun a => (Kind.nodeExporter, a))
          ++ (v.postgresExporterConfigs.map fun a => (Kind.postgresExporter, a))
          ++ (v.processExporter.toList.map fun a => (Kind.processExporter, a))
          ++ (v.redisExporterConfigs.map fun a => (Kind.redisExporter, a))
          ++ (v.statsdExporter.toList.map fun a => (Kind.statsdExporter, a))
          ++ (v.windowsExporter.toList.map fun a => (Kind.windowsExporter, a))
          ++ (v.testConfigs.map fun a => (Kind.testConfig, a))) ∧
    exThreeConfigs.ActiveConfigs
      = [(Kind.cadvisor, 7), (Kind.consulExporter, 1), (Kind.consulExporter, 2)] ∧
    exThreeConfigs.ActiveConfigs.length = 3 := by
  refine ⟨?_, by decide, by decide⟩
  intro α v
  simp only [Integrations.ActiveConfigs, appendIfPresent_eq, appendEach_eq,
    List.nil_append, List.append_assoc]

/-- Embedding of `implementsMarshaller` (src/unnamed/part_001 lines
506-512): whether a Go value's type implements `yaml.Unmarshaler` is a
static property of the type, embedded as a Boolean together with the
type's printed name (`%T`); when the type implements it, the returned
error is `errors.New(fmt.Sprintf("%T cannot implement custom unmarshaler", i))`. -/
def implementsMarshaller (typeName : String) (isYamlUnmarshaler : Bool) :
    Option GoError :=
  if isYamlUnmarshaler then
    some (.mk (typeName ++ " cannot implement custom unmarshaler"))
  else none

/-- The receiver of a generated wrapper `UnmarshalYAML` method: the
embedded legacy config (abstracted by `α`, the v1 config packages being
external) and the inline Common Settings. -/
structure WrappedExporterConfig (α : Type) where
  config : α
  cmn : MetricsConfig
deriving DecidableEq, Repr

/-- Embedding of the generated wrapper `UnmarshalYAML` methods in the
shape of `Cadvisor.UnmarshalYAML` (src/unnamed/part_001 lines 139-147):
assign the kind's default config to the receiver, run the
`implementsMarshaller` guard and abort on its error, then delegate to
the yaml `unmarshal` callback (embedded as an oracle transforming the
receiver and possibly returning an error). -/
def wrapperUnmarshalYAML {α : Type} (defaultConfig : α) (typeName : String)
    (isYamlUnmarshaler : Bool)
    (unmarshal : WrappedExporterConfig α → WrappedExporterConfig α × Option GoError)
    (c : WrappedExporterConfig α) :
    WrappedExporterConfig α × Option GoError :=
  let c1 : WrappedExporterConfig α := { c with config := defaultConfig }
  match implementsMarshaller typeName isYamlUnmarshaler with
  | some e => (c1, some e)
  | none => unmarshal c1

/-- Counterexample to C6: for a wrapped config whose embedded legacy
type implements `yaml.Unmarshaler`, `UnmarshalYAML` does fail with an
error naming the type, but the kind-specific default has already been
assigned to the receiver when the guard fires: the receiver's embedded
config equals the default, not its pre-call value, so the check does
not run before all defaulting is applied to that config. -/
theorem unmarshal_guard_counterexample :
    (wrapperUnmarshalYAML (0 : Nat) "cadvisor.Config" true (fun s => (s, none))
      { config := 1, cmn := { scrapeInterval := none, instanceKey := none } }).2
      = some (.mk "cadvisor.Config cannot implement custom unmarshaler") ∧
    (wrapperUnmarshalYAML (0 : Nat) "cadvisor.Config" true (fun s => (s, none))
      { config := 1, cmn := { scrapeInterval := none, instanceKey := none } }).1.config = 0 ∧
    ({ config := 1, cmn := { scrapeInterval := none, instanceKey := none } }
      : WrappedExporterConfig Nat).config ≠ 0 := by
  refine ⟨rfl, rfl, by decide⟩

/-- C6 amended: unmarshalling a wrapped exporter config whose embedded
legacy type implements a custom YAML unmarshaler fails with an error
naming the offending type; the guard fires before the YAML data is
unmarshalled (the unmarshal callback is never consulted) and before any
global defaulting, but after the kind-specific default value has been
assigned to the embedded config. -/
theorem unmarshal_guard_rejects_custom_unmarshaler {α : Type}
    (defaultConfig : α) (typeName : String)
    (unm unm' : WrappedExporterConfig α → WrappedExporterConfig α × Option GoError)
    (c : WrappedExporterConfig α) :
    (wrapperUnmarshalYAML defaultConfig typeName true unm c).2
      = some (.mk (typeName ++ " cannot implement custom unmarshaler")) ∧
    wrapperUnmarshalYAML defaultConfig typeName true unm c
      = wrapperUnmarshalYAML defaultConfig typeName true unm' c ∧
    (wrapperUnmarshalYAML defaultConfig typeName true unm c).1.config
      = defaultConfig ∧
    (wrapperUnmarshalYAML defaultConfig typeName true unm c).1.cmn = c.cmn := by
  refine ⟨rfl, rfl, rfl, rfl⟩
